import Mathlib

/-!
Shallow embedding of the `main` entry point of sgpt (src/sgpt/app.py) and of the
collaborating handlers it drives, together with theorems settling the claims about
flag validation, role resolution, the REPL branch, and the shell execution loop.

The embedding models one invocation of `main` as a pure function from the parsed
CLI parameters (`Invocation`) and the ambient world (`Env`: persisted roles,
configuration, stdin/editor/remote-model contents, the user's interactive answers)
to the ordered list of observable effects (`Event`) plus the final `Outcome`.
-/

namespace ShellGpt

/-- Python truthiness of an optional string value: `None` and the empty string are
falsy, every other string is truthy (used for `prompt`, `chat`, `repl`, `role`,
`image` in app.py). -/
def truthy : Option String → Bool
  | none => false
  | some s => !(s == "")

/-- Errors raised by `main` before or during role resolution. `MissingParameter`
and `BadArgumentUsage` are the click usage errors raised in app.py lines 149,
152, 157, 160, 166; `NotFoundError` models the Role Registry failure for an
unknown explicit role name (spec section 4.1). All cause a non-zero exit. -/
inductive Err where
  | MissingParameter (paramHint : String)
  | BadArgumentUsage (message : String)
  | NotFoundError (roleName : String)
deriving DecidableEq, Repr

/-- How one invocation of `main` relinquishes control. `normal` is an ordinary
return; `replExited` is the REPL Driver's terminal Exited state (control returns
to the caller via the interrupt/exit signal that ends the REPL loop); `error`
is a raised usage/lookup error (non-zero exit). -/
inductive Outcome where
  | normal
  | replExited
  | error (e : Err)
deriving DecidableEq, Repr

/-- A resolved system role: the four built-in roles of `DefaultRoles` plus
persisted custom roles (spec section 3, Role). -/
inductive Role where
  | shellRole
  | describeShellRole
  | codeRole
  | defaultRole
  | custom (name : String) (text : String)
deriving DecidableEq, Repr

/-- Modelled from the spec: `DefaultRoles.check_get(shell, describe_shell, code)`
(sgpt/role.py is not part of the embedded sources). Per spec section 4.1 it
returns the unique built-in role matching the set flag, or the plain default
role if none is set; `main` only calls it after validating that at most one
flag is set. -/
def check_get (shell describe code : Bool) : Role :=
  if shell then .shellRole
  else if describe then .describeShellRole
  else if code then .codeRole
  else .defaultRole

/-- Modelled from the spec: `SystemRole.get(role)` (sgpt/role.py is not part of
the embedded sources). Per spec section 4.1 it looks the name up in persisted
role storage and fails with `NotFoundError` if absent. The storage is the
`store` argument. -/
def SystemRole_get (store : String → Option String) (name : String) :
    Except Err Role :=
  match store name with
  | some text => .ok (.custom name text)
  | none => .error (.NotFoundError name)

/-- app.py lines 186-190: `role_class = DefaultRoles.check_get(shell,
describe_shell, code) if not role else SystemRole.get(role)`. The flag-based
lookup is evaluated only when no truthy explicit role name is given. -/
def resolveRole (shell describe code : Bool) (role : Option String)
    (store : String → Option String) : Except Err Role :=
  if truthy role then SystemRole_get store (role.getD "")
  else .ok (check_get shell describe code)

/-- Which handler performed a completion call: `ReplHandler` (app.py line 202),
`ChatHandler` (line 212), the one-shot `DefaultHandler` (line 223), or the
fixed-role `DefaultHandler` call made by the describe branch of the shell
loop (line 245). -/
inductive HKind where
  | repl
  | chat
  | oneshot
  | describe
deriving DecidableEq, Repr

/-- Observable effects of one invocation, in order. `roleResolved` is line 186;
`completionCall` is a Completion Handler call (its `chatId` is `none` for the
one-shot handlers); `sessionAppend` is the Chat Session Store commit the spec
attaches to chat-id calls (section 4.4 step 6); `shellPrompt` is the
execute/describe/abort prompt (line 234) carrying the configured default
choice; `runCommand` is the child-process execution of the generated command
(line 243) carrying the child's exit status. -/
inductive Event where
  | roleResolved (r : Role)
  | completionCall (kind : HKind) (role : Role) (chatId : Option String)
      (prompt : Option String)
  | sessionAppend (chatId : String)
  | shellPrompt (defaultChoice : String)
  | runCommand (cmd : String) (status : Int)
deriving DecidableEq, Repr

def Event.isShellPrompt : Event → Bool
  | .shellPrompt _ => true
  | _ => false

def Event.isRunCommand : Event → Bool
  | .runCommand _ _ => true
  | _ => false

def Event.isSessionAppend : Event → Bool
  | .sessionAppend _ => true
  | _ => false

def Event.isCompletion : Event → Bool
  | .completionCall _ _ _ _ => true
  | _ => false

def Event.completionKind : Event → Option HKind
  | .completionCall k _ _ _ => some k
  | _ => none

/-- One answer of the user to the shell loop prompt: one of the valid choices
`e`, `d`, `a`, `y` of the `Choice` type at app.py line 236, or pressing enter
to accept the configured default. -/
inductive ShellChoice where
  | e
  | d
  | a
  | y
  | useDefault
deriving DecidableEq, Repr

/-- app.py line 237: the prompt's default answer is `"e"` exactly when the
configured `DEFAULT_EXECUTE_SHELL_CMD` value equals the string `"true"`, and
`"a"` otherwise. -/
def shellDefault (cfgValue : String) : String :=
  if cfgValue == "true" then "e" else "a"

/-- The option string `typer.prompt` returns for one user answer, given the
default answer in force. -/
def resolveChoice (dflt : String) : ShellChoice → String
  | .e => "e"
  | .d => "d"
  | .a => "a"
  | .y => "y"
  | .useDefault => dflt

/-- app.py lines 233-254, the body of `while shell and not stdin_passed`. Each
iteration presents the prompt; answer `e` or `y` runs the generated command in
a child process and then breaks; answer `d` makes a one-shot fixed-role
describe call and continues the loop; answer `a` falls through to `break`.
An empty answer list models a user who never responds: the prompt is shown
and the process blocks, producing no further event. `run_command` (sgpt/utils.py,
not part of the embedded sources) is modelled from the spec: it runs the
command and discards the child's exit status (section 4.6 Execute). -/
def shellLoop (dflt cmd : String) (status : Int) :
    List ShellChoice → List Event
  | [] => [.shellPrompt dflt]
  | c :: rest =>
    let opt := resolveChoice dflt c
    if opt == "e" || opt == "y" then
      [.shellPrompt dflt, .runCommand cmd status]
    else if opt == "d" then
      .shellPrompt dflt ::
        .completionCall .describe .describeShellRole none (some cmd) ::
          shellLoop dflt cmd status rest
    else
      [.shellPrompt dflt]

/-- Modelled from the spec: `ChatHandler(chat, role_class).handle(...)` (app.py
lines 211-221; sgpt/handlers are not part of the embedded sources). Per spec
section 4.4 a call carrying a chat id commits the user and assistant messages
to the Chat Session Store exactly once. -/
def chatCall (role : Role) (chatId : String) (prompt : Option String) :
    List Event :=
  [.completionCall .chat role (some chatId) prompt, .sessionAppend chatId]

/-- Modelled from the spec: the one-shot `DefaultHandler(role_class).handle(...)`
(app.py lines 222-231). It carries no chat id, so per spec section 4.4 step 6
it never appends to any chat session. -/
def defaultCall (role : Role) (prompt : Option String) : List Event :=
  [.completionCall .oneshot role none prompt]

/-- Modelled from the spec: `ReplHandler(repl, role_class).handle(prompt, ...)`
(app.py lines 200-209; sgpt/handlers/repl_handler.py is not part of the
embedded sources). Per spec section 4.5 the REPL Driver loops Reading →
Generating → Printed over the named session; each turn is a Completion
Handler call with the REPL's chat id; an initial truthy prompt is consumed
as the first turn; the loop ends only in the terminal Exited state. -/
def replSession (role : Role) (chatId : String) (initPrompt : Option String)
    (lines : List String) : List Event :=
  ((if truthy initPrompt then [initPrompt.getD ""] else []) ++ lines).flatMap
    fun line =>
      [Event.completionCall .repl role (some chatId) (some line),
       Event.sessionAppend chatId]

/-- The parsed CLI parameters of one invocation of `main` (app.py lines 27-141)
that the embedded control flow reads, plus whether stdin was piped and with
what content (`stdin = some s` models `not sys.stdin.isatty()` with `s` the
text `sys.stdin.read()` returns; `none` models an interactive terminal). -/
structure Invocation where
  prompt : Option String
  model : String
  shell : Bool
  describe_shell : Bool
  code : Bool
  editor : Bool
  cache : Bool
  chat : Option String
  image : Option String
  repl : Option String
  tokenize : Bool
  role : Option String
  stdin : Option String
deriving DecidableEq, Repr

/-- The ambient world of one invocation: persisted custom roles, the
`DEFAULT_EXECUTE_SHELL_CMD` configuration value, the text `get_edited_prompt`
returns, the completion text the remote boundary produces, the user's answers
to the shell loop prompt, the lines typed in a REPL session, and the exit
status of the child process spawned by `run_command`. -/
structure Env where
  store : String → Option String
  cfgDefaultExecute : String
  editedPrompt : String
  completion : String
  shellChoices : List ShellChoice
  replLines : List String
  childStatus : Int

/-- app.py line 151: `sum((shell, describe_shell, code))`. -/
def flagsOf (shell describe code : Bool) : Nat :=
  (if shell then 1 else 0) + (if describe then 1 else 0) +
    (if code then 1 else 0)

def flagCount (inv : Invocation) : Nat :=
  flagsOf inv.shell inv.describe_shell inv.code

def onlyOneMsg : String :=
  "Only one of --shell, --describe-shell, and --code options can be used at a time."

def chatReplMsg : String := "--chat and --repl options cannot be used together."

def editorStdinMsg : String := "--editor option cannot be used with stdin input."

def imageModelMsg : String := "--image prompt requires gpt-4-vision-preview model"

/-- app.py lines 143-146: when stdin is piped and no REPL id is given, the piped
text is prepended to the prompt, joined with a blank line
(`prompt = f"..."` with `{stdin}\n\n{prompt or ''}`). -/
def effectivePrompt (inv : Invocation) : Option String :=
  if inv.stdin.isSome && !(truthy inv.repl) then
    some ((inv.stdin.getD "") ++ "\n\n" ++ (inv.prompt.getD ""))
  else inv.prompt

/-- app.py line 183-184: when the editor flag is set, the prompt is replaced by
the text obtained from `$EDITOR`. -/
def finalPrompt (inv : Invocation) (env : Env) : Option String :=
  if inv.editor then some env.editedPrompt else effectivePrompt inv

/-- app.py lines 211-231: the generation step, a `ChatHandler` call when a chat
id is truthy and a one-shot `DefaultHandler` call otherwise. -/
def generation (inv : Invocation) (env : Env) (rc : Role) : List Event :=
  if truthy inv.chat then chatCall rc (inv.chat.getD "") (finalPrompt inv env)
  else defaultCall rc (finalPrompt inv env)

/-- app.py line 233: the shell execution loop runs exactly when the shell flag
is set and stdin is interactive (`while shell and not stdin_passed`). -/
def postLoop (inv : Invocation) (env : Env) : List Event :=
  if inv.shell && !inv.stdin.isSome then
    shellLoop (shellDefault env.cfgDefaultExecute) env.completion
      env.childStatus env.shellChoices
  else []

/-- The embedded body of `main` (app.py lines 142-254), in source order: stdin
prepending (143-146), the missing-prompt check (148-149), the conflicting-flags
check (151-154), the chat/repl exclusion (156-157), the editor/stdin exclusion
(159-160), the image model check (162-166), the editor prompt (183-184), role
resolution (186-190), the tokenize early return (192-198, its token counting is
output only and elided), the terminal REPL branch (200-209, whose handler per
spec section 4.5 only leaves its loop through the terminal Exited state, so
control never falls through to the handlers below it), the chat/one-shot
generation (211-231), and the shell execution loop (233-254). -/
def main (inv : Invocation) (env : Env) : List Event × Outcome :=
  if !(truthy (effectivePrompt inv)) && !inv.editor && !(truthy inv.repl) then
    ([], .error (.MissingParameter "PROMPT"))
  else if flagCount inv > 1 then
    ([], .error (.BadArgumentUsage onlyOneMsg))
  else if truthy inv.chat && truthy inv.repl then
    ([], .error (.BadArgumentUsage chatReplMsg))
  else if inv.editor && inv.stdin.isSome then
    ([], .error (.BadArgumentUsage editorStdinMsg))
  else if truthy inv.image && !(inv.model == "gpt-4-vision-preview") then
    ([], .error (.BadArgumentUsage imageModelMsg))
  else
    match resolveRole inv.shell inv.describe_shell inv.code inv.role env.store with
    | .error e => ([], .error e)
    | .ok rc =>
      if inv.tokenize then ([.roleResolved rc], .normal)
      else if truthy inv.repl then
        (.roleResolved rc ::
           replSession rc (inv.repl.getD "") (finalPrompt inv env) env.replLines,
         .replExited)
      else
        (.roleResolved rc :: (generation inv env rc ++ postLoop inv env),
         .normal)

/-! Concrete invocations and environments used to instantiate the theorems. -/

def emptyStore : String → Option String := fun _ => none

/-- An environment with no persisted role, `DEFAULT_EXECUTE_SHELL_CMD` not
`"true"`, and a user who gives no answer to the shell loop prompt. -/
def envA : Env := ⟨emptyStore, "false", "edited text", "ls -la", [], [], 0⟩

/-- An environment whose user answers Execute at the first shell loop prompt. -/
def envE : Env := ⟨emptyStore, "false", "edited text", "ls -la", [ShellChoice.e], [], 0⟩

/-! Structural lemmas about the embedded loops and handlers. -/

lemma shellLoop_events (d c : String) (s : Int) :
    ∀ cs : List ShellChoice, ∀ ev ∈ shellLoop d c s cs,
      ev = Event.shellPrompt d ∨ ev = Event.runCommand c s ∨
        ev = Event.completionCall HKind.describe Role.describeShellRole none (some c) := by
  intro cs
  induction cs with
  | nil =>
    intro ev hev
    simp [shellLoop] at hev
    exact Or.inl hev
  | cons ch rest ih =>
    intro ev hev
    simp only [shellLoop] at hev
    split at hev
    · simp only [List.mem_cons, List.not_mem_nil, or_false] at hev
      rcases hev with h | h
      · exact Or.inl h
      · exact Or.inr (Or.inl h)
    · split at hev
      · simp only [List.mem_cons] at hev
        rcases hev with h | h | h
        · exact Or.inl h
        · exact Or.inr (Or.inr h)
        · exact ih ev h
      · simp only [List.mem_cons, List.not_mem_nil, or_false] at hev
        exact Or.inl hev

lemma shellLoop_no_append (d c : String) (s : Int) (cs : List ShellChoice) :
    ∀ ev ∈ shellLoop d c s cs, ev.isSessionAppend = false := by
  intro ev hev
  rcases shellLoop_events d c s cs ev hev with h | h | h <;> subst h <;> rfl

lemma shellLoop_any_prompt (d c : String) (s : Int) (cs : List ShellChoice) :
    (shellLoop d c s cs).any Event.isShellPrompt = true := by
  cases cs with
  | nil => rfl
  | cons ch rest =>
    simp only [shellLoop]
    split
    · rfl
    · split
      · rfl
      · rfl

lemma shellLoop_prompt_eq (d c : String) (s : Int) (cs : List ShellChoice)
    (d' : String) (h : Event.shellPrompt d' ∈ shellLoop d c s cs) : d' = d := by
  rcases shellLoop_events d c s cs _ h with h' | h' | h'
  · injection h' with h''
  · exact Event.noConfusion h'
  · exact Event.noConfusion h'

lemma replSession_events (r : Role) (cid : String) (p : Option String)
    (ls : List String) :
    ∀ ev ∈ replSession r cid p ls,
      (∃ ln, ev = Event.completionCall HKind.repl r (some cid) (some ln)) ∨
        ev = Event.sessionAppend cid := by
  intro ev hev
  unfold replSession at hev
  rw [List.mem_flatMap] at hev
  obtain ⟨ln, _, hin⟩ := hev
  simp only [List.mem_cons, List.not_mem_nil, or_false] at hin
  rcases hin with h | h
  · exact Or.inl ⟨ln, h⟩
  · exact Or.inr h

lemma replSession_any_false (r : Role) (cid : String) (p : Option String)
    (ls : List String) (q : Event → Bool)
    (hq1 : ∀ ln, q (Event.completionCall HKind.repl r (some cid) (some ln)) = false)
    (hq2 : q (Event.sessionAppend cid) = false) :
    (replSession r cid p ls).any q = false := by
  rw [List.any_eq_false]
  intro ev hev
  rcases replSession_events r cid p ls ev hev with ⟨ln, h⟩ | h <;> subst h <;>
    simp [hq1, hq2]

lemma generation_events (inv : Invocation) (env : Env) (rc : Role) :
    ∀ ev ∈ generation inv env rc,
      (∃ k cid, (k = HKind.chat ∨ k = HKind.oneshot) ∧
          ev = Event.completionCall k rc cid (finalPrompt inv env)) ∨
        ∃ i, ev = Event.sessionAppend i := by
  intro ev hev
  unfold generation at hev
  split at hev
  · unfold chatCall at hev
    simp only [List.mem_cons, List.not_mem_nil, or_false] at hev
    rcases hev with h | h
    · exact Or.inl ⟨HKind.chat, some (inv.chat.getD ""), Or.inl rfl, h⟩
    · exact Or.inr ⟨_, h⟩
  · unfold defaultCall at hev
    simp only [List.mem_cons, List.not_mem_nil, or_false] at hev
    exact Or.inl ⟨HKind.oneshot, none, Or.inr rfl, hev⟩

lemma generation_no_prompt (inv : Invocation) (env : Env) (rc : Role) :
    (generation inv env rc).any Event.isShellPrompt = false := by
  rw [List.any_eq_false]
  intro ev hev
  rcases generation_events inv env rc ev hev with ⟨k, cid, _, h⟩ | ⟨i, h⟩ <;>
    subst h <;> simp [Event.isShellPrompt]

lemma resolveRole_error (s d c : Bool) (r : Option String)
    (store : String → Option String) (e : Err)
    (h : resolveRole s d c r store = .error e) : ∃ n, e = Err.NotFoundError n := by
  unfold resolveRole at h
  split at h
  · unfold SystemRole_get at h
    split at h
    · simp at h
    · injection h with h'
      exact ⟨_, h'.symm⟩
  · simp at h

/-- The piped-stdin prompt `f"{stdin}\n\n{prompt or ''}"` is never empty, hence
always truthy. -/
lemma truthy_join (s p : String) : truthy (some (s ++ "\n\n" ++ p)) = true := by
  have h : (s ++ "\n\n" ++ p) ≠ "" := by
    intro h
    have hl := congrArg String.length h
    rw [String.length_append, String.length_append] at hl
    simp [String.length_empty] at hl
    exact absurd hl.1.2 (by decide)
  simp [truthy, h]

/-- Exhaustive case analysis of `main`: every invocation either fails before
role resolution with an empty trace, returns after the tokenize branch,
finishes in the REPL branch's terminal state, or completes the one-shot/chat
generation followed by the shell loop. -/
lemma main_cases (inv : Invocation) (env : Env) :
    (∃ e, main inv env = ([], Outcome.error e)) ∨
    (∃ rc, inv.tokenize = true ∧
       main inv env = ([Event.roleResolved rc], Outcome.normal)) ∨
    (∃ rc, inv.tokenize = false ∧ truthy inv.repl = true ∧
       (inv.editor && inv.stdin.isSome) = false ∧
       main inv env =
         (Event.roleResolved rc ::
            replSession rc (inv.repl.getD "") (finalPrompt inv env) env.replLines,
          Outcome.replExited)) ∨
    (∃ rc, inv.tokenize = false ∧ truthy inv.repl = false ∧
       (inv.editor && inv.stdin.isSome) = false ∧
       main inv env =
         (Event.roleResolved rc :: (generation inv env rc ++ postLoop inv env),
          Outcome.normal)) := by
  unfold main
  split
  · exact Or.inl ⟨_, rfl⟩
  · split
    · exact Or.inl ⟨_, rfl⟩
    · split
      · exact Or.inl ⟨_, rfl⟩
      · split
        · exact Or.inl ⟨_, rfl⟩
        · next hed' =>
          have hed : (inv.editor && inv.stdin.isSome) = false := by
            revert hed'; cases (inv.editor && inv.stdin.isSome) <;> simp
          split
          · exact Or.inl ⟨_, rfl⟩
          · split
            · exact Or.inl ⟨_, rfl⟩
            · next rc _ =>
              split
              · next htok => exact Or.inr (Or.inl ⟨rc, htok, rfl⟩)
              · next htok' =>
                have htok : inv.tokenize = false := by
                  revert htok'; cases inv.tokenize <;> simp
                split
                · next hrep =>
                  exact Or.inr (Or.inr (Or.inl ⟨rc, htok, hrep, hed, rfl⟩))
                · next hrep' =>
                  have hrep : truthy inv.repl = false := by
                    revert hrep'; cases (truthy inv.repl) <;> simp
                  exact Or.inr (Or.inr (Or.inr ⟨rc, htok, hrep, hed, rfl⟩))

/-- `MissingParameter` can only be raised by the missing-prompt check, so it
never surfaces when the effective prompt is truthy. -/
lemma main_not_missing (inv : Invocation) (env : Env)
    (h : truthy (effectivePrompt inv) = true) :
    (main inv env).2 ≠ Outcome.error (Err.MissingParameter "PROMPT") := by
  unfold main
  split
  · next hcond => simp [h] at hcond
  · split
    · simp
    · split
      · simp
      · split
        · simp
        · split
          · simp
          · split
            · next e heq =>
              obtain ⟨n, rfl⟩ := resolveRole_error _ _ _ _ _ _ heq
              simp
            · split
              · simp
              · split
                · simp
                · simp

/-- Shell and code flags both set, but no prompt, no stdin, no editor, no REPL. -/
def c1CexInv : Invocation :=
  ⟨none, "gpt-4o", true, false, true, false, true, none, none, none, false, none, none⟩

/-- Shell and code flags both set, with a prompt supplied. -/
def c1WitInv : Invocation :=
  ⟨some "hi", "gpt-4o", true, false, true, false, true, none, none, none, false, none,
   none⟩

/-- Claim C1, counterexample: with the shell and code flags both set but no prompt
supplied (and no stdin, editor, or REPL), the program fails with click's
`MissingParameter` error from the earlier prompt-presence check, not with the
conflicting-flags `ConfigurationError` (`BadArgumentUsage`). -/
theorem c1_counterexample :
    2 ≤ flagCount c1CexInv ∧
    (main c1CexInv envA).2 = Outcome.error (Err.MissingParameter "PROMPT") ∧
    (main c1CexInv envA).2 ≠ Outcome.error (Err.BadArgumentUsage onlyOneMsg) := by
  decide

/-- Claim C1 (amended): for every invocation in which two or more of the shell,
describe-shell, and code flags are set, the program fails with a usage error
(non-zero exit) before any role is resolved and before any remote call (the
trace is empty); the error is the conflicting-flags `BadArgumentUsage` whenever
the prompt-presence check passes (a truthy effective prompt, the editor flag,
or a REPL id), and the missing-prompt `MissingParameter` error otherwise. -/
theorem c1_flag_conflict (inv : Invocation) (env : Env)
    (h : 2 ≤ flagCount inv) :
    (main inv env).1 = [] ∧
    ((main inv env).2 = Outcome.error (Err.MissingParameter "PROMPT") ∨
      (main inv env).2 = Outcome.error (Err.BadArgumentUsage onlyOneMsg)) ∧
    ((truthy (effectivePrompt inv) = true ∨ inv.editor = true ∨
        truthy inv.repl = true) →
      (main inv env).2 = Outcome.error (Err.BadArgumentUsage onlyOneMsg)) ∧
    ((truthy (effectivePrompt inv) = false ∧ inv.editor = false ∧
        truthy inv.repl = false) →
      (main inv env).2 = Outcome.error (Err.MissingParameter "PROMPT")) := by
  have hgt : flagCount inv > 1 := h
  unfold main
  split
  · next hcond =>
    refine ⟨rfl, Or.inl rfl, ?_, fun _ => rfl⟩
    intro hdis
    exfalso
    rcases hdis with ht | ht | ht <;> simp [ht] at hcond
  · next hcond =>
    refine ⟨rfl, Or.inr rfl, fun _ => rfl, ?_⟩
    rintro ⟨h1, h2, h3⟩
    exact absurd (by simp [h1, h2, h3]) hcond

/-- Claim C1 witness: `c1_flag_conflict` instantiated at an invocation with two
flags and a prompt. -/
theorem c1_flag_conflict_witness :
    (main c1WitInv envA).2 = Outcome.error (Err.BadArgumentUsage onlyOneMsg) :=
  (c1_flag_conflict c1WitInv envA (by decide)).2.2.1 (Or.inl (by decide))

/-- Claim C2: with at most one of the shell/describe-shell/code flags set, role
resolution (app.py lines 186-190) is deterministic and total: a truthy explicit
role name makes the result exactly the persisted-role lookup, independent of
all three flags (the flag-based lookup is not consulted); otherwise the result
is the unique built-in role matching the set flag, or the plain default role
when none is set. -/
theorem c2_role_resolution (shell dsh code : Bool) (role : Option String)
    (store : String → Option String)
    (hflags : flagsOf shell dsh code ≤ 1) :
    (truthy role = true →
       resolveRole shell dsh code role store = SystemRole_get store (role.getD "") ∧
       ∀ shell' dsh' code' : Bool,
         resolveRole shell' dsh' code' role store =
           resolveRole shell dsh code role store) ∧
    (truthy role = false →
       (shell = true → resolveRole shell dsh code role store = .ok Role.shellRole) ∧
       (dsh = true →
          resolveRole shell dsh code role store = .ok Role.describeShellRole) ∧
       (code = true → resolveRole shell dsh code role store = .ok Role.codeRole) ∧
       (shell = false → dsh = false → code = false →
          resolveRole shell dsh code role store = .ok Role.defaultRole)) := by
  constructor
  · intro htr
    exact ⟨by simp [resolveRole, htr], fun s' d' c' => by simp [resolveRole, htr]⟩
  · intro hf
    refine ⟨?_, ?_, ?_, ?_⟩
    · intro hs
      simp [resolveRole, hf, check_get, hs]
    · intro hd
      have hs : shell = false := by
        revert hflags
        subst hd
        cases shell <;> cases code <;> decide
      simp [resolveRole, hf, check_get, hs, hd]
    · intro hc
      have hsd : shell = false ∧ dsh = false := by
        revert hflags
        subst hc
        cases shell <;> cases dsh <;> decide
      simp [resolveRole, hf, check_get, hsd.1, hsd.2, hc]
    · intro hs hd hc
      simp [resolveRole, hf, check_get, hs, hd, hc]

/-- Claim C2 witness: `c2_role_resolution` instantiated at the describe-shell
flag alone with no explicit role. -/
theorem c2_role_resolution_witness :
    resolveRole false true false none emptyStore = .ok Role.describeShellRole :=
  ((c2_role_resolution false true false none emptyStore (by decide)).2 rfl).2.1 rfl

/-- A chat id and a REPL id supplied together. -/
def c9Inv : Invocation :=
  ⟨some "hi", "gpt-4o", false, false, false, false, true, some "work", none,
   some "work2", false, none, none⟩

/-- Claim C9: supplying both a truthy chat id and a truthy REPL id always fails
with a `BadArgumentUsage` usage error (non-zero exit) with an empty trace, so
before role resolution and before any completion call; the error is the
chat/repl exclusion message, unless the conflicting-flags check fires first. -/
theorem c9_chat_repl_exclusive (inv : Invocation) (env : Env)
    (hc : truthy inv.chat = true) (hr : truthy inv.repl = true) :
    (main inv env).1 = [] ∧
    ((main inv env).2 = Outcome.error (Err.BadArgumentUsage onlyOneMsg) ∨
      (main inv env).2 = Outcome.error (Err.BadArgumentUsage chatReplMsg)) := by
  unfold main
  split
  · next h1 => simp [hr] at h1
  · split
    · exact ⟨rfl, Or.inl rfl⟩
    · split
      · exact ⟨rfl, Or.inr rfl⟩
      · next h3 => exact absurd (by simp [hc, hr]) h3

/-- Claim C9 witness: `c9_chat_repl_exclusive` at a concrete invocation carrying
both identifiers. -/
theorem c9_chat_repl_exclusive_witness :
    (main c9Inv envA).1 = [] ∧
    ((main c9Inv envA).2 = Outcome.error (Err.BadArgumentUsage onlyOneMsg) ∨
      (main c9Inv envA).2 = Outcome.error (Err.BadArgumentUsage chatReplMsg)) :=
  c9_chat_repl_exclusive c9Inv envA (by decide) (by decide)

/-- A REPL invocation with an initial prompt. -/
def c3Inv : Invocation :=
  ⟨some "hello", "gpt-4o", false, false, false, false, true, none, none,
   some "tmp", false, none, none⟩

/-- Claim C3: the REPL's Exited state is terminal. For every invocation with a
truthy REPL id, no completion call of any other kind is ever performed (every
completion call in the trace is a REPL-session call), main never falls through
to the one-shot/chat generation (`normal` outcome is impossible outside the
tokenize early return), and whenever the invocation is not a tokenize run it
either finishes in the REPL's terminal `replExited` outcome or fails before
any effect with an empty trace. -/
theorem c3_repl_terminal (inv : Invocation) (env : Env)
    (h : truthy inv.repl = true) :
    (∀ ev ∈ (main inv env).1,
       ev.completionKind = none ∨ ev.completionKind = some HKind.repl) ∧
    (inv.tokenize = false → (main inv env).2 ≠ Outcome.normal) ∧
    (inv.tokenize = false →
       ((main inv env).2 = Outcome.replExited ∨ (main inv env).1 = [])) := by
  rcases main_cases inv env with ⟨e, hm⟩ | ⟨rc, htok, hm⟩ |
    ⟨rc, htok, _, _, hm⟩ | ⟨rc, _, hrep, _, hm⟩
  · refine ⟨?_, ?_, ?_⟩
    · rw [hm]
      intro ev hev
      simp at hev
    · rw [hm]
      intro _
      simp
    · rw [hm]
      exact fun _ => Or.inr rfl
  · refine ⟨?_, ?_, ?_⟩
    · rw [hm]
      intro ev hev
      simp only [List.mem_cons, List.not_mem_nil, or_false] at hev
      subst hev
      exact Or.inl rfl
    · intro htok'
      rw [htok] at htok'
      exact absurd htok' (by simp)
    · intro htok'
      rw [htok] at htok'
      exact absurd htok' (by simp)
  · refine ⟨?_, ?_, ?_⟩
    · rw [hm]
      intro ev hev
      simp only [List.mem_cons] at hev
      rcases hev with hev | hev
      · subst hev
        exact Or.inl rfl
      · rcases replSession_events _ _ _ _ ev hev with ⟨ln, h'⟩ | h' <;> subst h'
        · exact Or.inr rfl
        · exact Or.inl rfl
    · rw [hm]
      intro _
      simp
    · rw [hm]
      exact fun _ => Or.inl rfl
  · rw [hrep] at h
    exact absurd h (by simp)

/-- Claim C3 witness: `c3_repl_terminal` at a concrete REPL invocation. -/
theorem c3_repl_terminal_witness : (main c3Inv envA).2 = Outcome.replExited := by
  rcases (c3_repl_terminal c3Inv envA (by decide)).2.2 rfl with h | h
  · exact h
  · exact absurd h (by decide)

/-- Shell flag set, interactive stdin, but a tokenize run. -/
def c4CexInv : Invocation :=
  ⟨some "list files", "gpt-4o", true, false, false, false, true, none, none, none,
   true, none, none⟩

/-- Shell flag set, interactive stdin, ordinary generation run. -/
def c4WitInv : Invocation :=
  ⟨some "list files", "gpt-4o", true, false, false, false, true, none, none, none,
   false, none, none⟩

/-- Claim C4, counterexample: an invocation with the shell flag set and
interactive (non-piped) stdin that returns normally, yet never enters the
Shell Execution Loop, because the tokenize branch returns before the handlers
run. The claimed "if and only if" therefore fails in the if direction. -/
theorem c4_counterexample :
    c4CexInv.shell = true ∧ c4CexInv.stdin = none ∧
    (main c4CexInv envA).2 = Outcome.normal ∧
    (main c4CexInv envA).1.any Event.isShellPrompt = false := by
  decide

/-- Claim C4 (amended): the Shell Execution Loop is entered (a loop prompt is
presented) if and only if the shell flag is set, stdin is interactive (not
piped), and the invocation completes the one-shot/chat generation path
(a `normal` outcome that is not the tokenize early return). In particular,
for every invocation without the shell flag, or with piped stdin, the loop is
never entered. -/
theorem c4_loop_guard (inv : Invocation) (env : Env) :
    (main inv env).1.any Event.isShellPrompt = true ↔
      (inv.shell = true ∧ inv.stdin = none ∧ inv.tokenize = false ∧
        (main inv env).2 = Outcome.normal) := by
  rcases main_cases inv env with ⟨e, hm⟩ | ⟨rc, htok, hm⟩ |
    ⟨rc, htok, hrep, hed, hm⟩ | ⟨rc, htok, hrep, hed, hm⟩
  · rw [hm]
    simp
  · rw [hm]
    simp [Event.isShellPrompt, htok]
  · rw [hm]
    simp only [List.any_cons]
    rw [replSession_any_false _ _ _ _ _ (fun _ => rfl) rfl]
    simp [Event.isShellPrompt]
  · rw [hm]
    simp only [List.any_cons, List.any_append]
    rw [generation_no_prompt]
    constructor
    · intro hany
      have hloop : (postLoop inv env).any Event.isShellPrompt = true := by
        simpa [Event.isShellPrompt] using hany
      have hcond : (inv.shell && !inv.stdin.isSome) = true := by
        by_contra hc
        rw [postLoop] at hloop
        rw [if_neg hc] at hloop
        simp at hloop
      refine ⟨?_, ?_, htok, by simp⟩
      · revert hcond
        cases inv.shell <;> simp
      · revert hcond
        cases inv.stdin <;> simp
    · rintro ⟨hs, hstdin, -, -⟩
      have hcond : (inv.shell && !inv.stdin.isSome) = true := by
        rw [hs, hstdin]
        rfl
      rw [postLoop, if_pos hcond, shellLoop_any_prompt]
      simp

/-- Claim C4 witness: `c4_loop_guard` in the entering direction at a concrete
shell invocation. -/
theorem c4_loop_guard_witness :
    (main c4WitInv envA).1.any Event.isShellPrompt = true :=
  (c4_loop_guard c4WitInv envA).mpr (by decide)

/-- Claim C5: in every Shell Execution Loop iteration where the user chooses
Describe, the iteration performs exactly one one-shot completion call with the
fixed describe-shell role and no chat id, then returns to the Prompting state
(the loop continues on the remaining answers); and no shell-loop run ever
appends to any chat session. -/
theorem c5_describe_one_shot (dflt cmd : String) (st : Int)
    (rest : List ShellChoice) :
    shellLoop dflt cmd st (ShellChoice.d :: rest) =
      Event.shellPrompt dflt ::
        Event.completionCall HKind.describe Role.describeShellRole none (some cmd) ::
          shellLoop dflt cmd st rest ∧
    ∀ (d' c' : String) (s' : Int) (cs : List ShellChoice),
      ∀ ev ∈ shellLoop d' c' s' cs, ev.isSessionAppend = false :=
  ⟨rfl, fun d' c' s' cs => shellLoop_no_append d' c' s' cs⟩

/-- Claim C5 witness: `c5_describe_one_shot` at a concrete loop trace. -/
theorem c5_describe_one_shot_witness :
    (Event.shellPrompt "a").isSessionAppend = false :=
  (c5_describe_one_shot "a" "ls -la" 0 []).2 "a" "ls -la" 0 []
    (Event.shellPrompt "a") (by decide)

/-- Claim C6: a Shell Execution Loop run in which the user chooses Execute runs
the generated command exactly once (one `runCommand` event carrying the
child's exit status) and then terminates; and whatever the child's exit
status, any invocation whose trace executed a command finishes with the
`normal` outcome, so the child's status is never surfaced as the program's
own exit status. -/
theorem c6_execute_once :
    (∀ (dflt cmd : String) (st : Int) (rest : List ShellChoice),
       shellLoop dflt cmd st (ShellChoice.e :: rest) =
         [Event.shellPrompt dflt, Event.runCommand cmd st] ∧
       (shellLoop dflt cmd st (ShellChoice.e :: rest)).countP
         Event.isRunCommand = 1) ∧
    ∀ (inv : Invocation) (env : Env),
      (main inv env).1.any Event.isRunCommand = true →
        (main inv env).2 = Outcome.normal := by
  constructor
  · intro dflt cmd st rest
    exact ⟨rfl, rfl⟩
  · intro inv env hrun
    rcases main_cases inv env with ⟨e, hm⟩ | ⟨rc, htok, hm⟩ |
      ⟨rc, htok, hrep, hed, hm⟩ | ⟨rc, _, _, _, hm⟩
    · rw [hm] at hrun
      simp at hrun
    · rw [hm] at hrun
      simp [Event.isRunCommand] at hrun
    · rw [hm] at hrun
      simp only [List.any_cons] at hrun
      rw [replSession_any_false _ _ _ _ _ (fun _ => rfl) rfl] at hrun
      simp [Event.isRunCommand] at hrun
    · rw [hm]

/-- A shell-command invocation with interactive stdin. -/
def c6Inv : Invocation :=
  ⟨some "show disk usage", "gpt-4o", true, false, false, false, true, none, none,
   none, false, none, none⟩

/-- Claim C6 witness: `c6_execute_once` at a shell invocation whose user answers
Execute. -/
theorem c6_execute_once_witness : (main c6Inv envE).2 = Outcome.normal :=
  c6_execute_once.2 c6Inv envE (by decide)

/-- Claim C7: a Shell Execution Loop iteration in which the user chooses Abort
terminates the loop immediately: the iteration's trace is just the prompt,
with no command execution, no completion call, and no session mutation, and
the remaining answers are never consumed. -/
theorem c7_abort_no_side_effect (dflt cmd : String) (st : Int)
    (rest : List ShellChoice) :
    shellLoop dflt cmd st (ShellChoice.a :: rest) = [Event.shellPrompt dflt] ∧
    ∀ ev ∈ shellLoop dflt cmd st (ShellChoice.a :: rest),
      ev.isRunCommand = false ∧ ev.isCompletion = false ∧
        ev.isSessionAppend = false := by
  have heq : shellLoop dflt cmd st (ShellChoice.a :: rest) =
      [Event.shellPrompt dflt] := rfl
  refine ⟨heq, ?_⟩
  intro ev hev
  rw [heq] at hev
  simp only [List.mem_cons, List.not_mem_nil, or_false] at hev
  subst hev
  exact ⟨rfl, rfl, rfl⟩

/-- Claim C7 witness: `c7_abort_no_side_effect` at a concrete loop trace. -/
theorem c7_abort_no_side_effect_witness :
    (Event.shellPrompt "e").isRunCommand = false ∧
    (Event.shellPrompt "e").isCompletion = false ∧
    (Event.shellPrompt "e").isSessionAppend = false :=
  (c7_abort_no_side_effect "e" "pwd" 2 [ShellChoice.d]).2
    (Event.shellPrompt "e") (by decide)

/-- Claim C8: the shell loop prompt's default choice is Execute (`"e"`) exactly
when the configured `DEFAULT_EXECUTE_SHELL_CMD` value equals the string
`"true"`, and Abort (`"a"`) otherwise; and every prompt presented in any run
of `main` carries exactly that configured default. -/
theorem c8_prompt_default (cfgValue : String) :
    (shellDefault cfgValue = "e" ↔ cfgValue = "true") ∧
    (cfgValue ≠ "true" → shellDefault cfgValue = "a") ∧
    ∀ (inv : Invocation) (env : Env) (d : String),
      Event.shellPrompt d ∈ (main inv env).1 →
        d = shellDefault env.cfgDefaultExecute := by
  refine ⟨?_, ?_, ?_⟩
  · constructor
    · intro he
      unfold shellDefault at he
      split at he
      · next hbeq => exact beq_iff_eq.mp hbeq
      · exact absurd he (by decide)
    · intro htrue
      simp [shellDefault, htrue]
  · intro hne
    simp [shellDefault, hne]
  · intro inv env d hmem
    rcases main_cases inv env with ⟨e, htm⟩ | ⟨rc, htok, htm⟩ |
      ⟨rc, htok, hrep, hed, htm⟩ | ⟨rc, htok, hrep, hed, htm⟩
    · rw [htm] at hmem
      simp at hmem
    · rw [htm] at hmem
      simp only [List.mem_cons, List.not_mem_nil, or_false] at hmem
      exact Event.noConfusion hmem
    · rw [htm] at hmem
      simp only [List.mem_cons] at hmem
      rcases hmem with h | h
      · exact Event.noConfusion h
      · rcases replSession_events _ _ _ _ _ h with ⟨ln, h'⟩ | h' <;>
          exact Event.noConfusion h'
    · rw [htm] at hmem
      simp only [List.mem_cons, List.mem_append] at hmem
      rcases hmem with h | h | h
      · exact Event.noConfusion h
      · rcases generation_events inv env rc _ h with ⟨k, cid, _, h'⟩ | ⟨i, h'⟩ <;>
          exact Event.noConfusion h'
      · unfold postLoop at h
        split at h
        · exact shellLoop_prompt_eq _ _ _ _ _ h
        · simp at h

/-- Claim C8 witness: `c8_prompt_default` at a configuration value other than
the string true. -/
theorem c8_prompt_default_witness : shellDefault "false" = "a" :=
  (c8_prompt_default "false").2.1 (by decide)

/-- No prompt, no stdin, no editor, no REPL id. -/
def c10AInv : Invocation :=
  ⟨none, "gpt-4o", false, false, false, false, true, none, none, none, false,
   none, none⟩

/-- A prompt argument together with piped stdin. -/
def c10BInv : Invocation :=
  ⟨some "extra", "gpt-4o", false, false, false, false, true, none, none, none,
   false, none, some "piped"⟩

/-- Claim C10: with no prompt argument, no piped stdin, no editor flag and no
REPL id, main fails immediately with the missing-parameter error and an empty
trace (before role resolution and any remote call); and when stdin is piped
with no REPL requested, the stdin text joined to the prompt with a blank line
becomes the effective prompt: the missing-parameter error cannot fire, and
every chat or one-shot completion call carries exactly that joined prompt. -/
theorem c10_prompt_requirement :
    (∀ (inv : Invocation) (env : Env),
       truthy inv.prompt = false → inv.stdin = none → inv.editor = false →
       truthy inv.repl = false →
       main inv env = ([], Outcome.error (Err.MissingParameter "PROMPT"))) ∧
    (∀ (inv : Invocation) (env : Env) (s : String),
       inv.stdin = some s → truthy inv.repl = false →
       effectivePrompt inv = some (s ++ "\n\n" ++ inv.prompt.getD "") ∧
       (main inv env).2 ≠ Outcome.error (Err.MissingParameter "PROMPT") ∧
       ∀ ev ∈ (main inv env).1, ∀ (k : HKind) (rc : Role)
         (cid : Option String) (p : Option String),
         ev = Event.completionCall k rc cid p →
         (k = HKind.chat ∨ k = HKind.oneshot) →
         p = some (s ++ "\n\n" ++ inv.prompt.getD "")) := by
  constructor
  · intro inv env hp hs he hr
    have heff : effectivePrompt inv = inv.prompt := by
      simp [effectivePrompt, hs]
    have hcond : (!truthy (effectivePrompt inv) && !inv.editor &&
        !truthy inv.repl) = true := by
      rw [heff]
      simp [hp, he, hr]
    simp [main, hcond]
  · intro inv env s hs hr
    have heff : effectivePrompt inv = some (s ++ "\n\n" ++ inv.prompt.getD "") := by
      simp [effectivePrompt, hs, hr]
    have htr : truthy (effectivePrompt inv) = true := by
      rw [heff]
      exact truthy_join _ _
    refine ⟨heff, main_not_missing inv env htr, ?_⟩
    intro ev hev k rc' cid p hevEq hk
    rcases main_cases inv env with ⟨e, hm⟩ | ⟨rc, htok, hm⟩ |
      ⟨rc, htok, hrep, hed, hm⟩ | ⟨rc, htok, hrep, hed, hm⟩
    · rw [hm] at hev
      simp at hev
    · rw [hm] at hev
      simp only [List.mem_cons, List.not_mem_nil, or_false] at hev
      subst hev
      exact Event.noConfusion hevEq
    · rw [hr] at hrep
      exact absurd hrep (by simp)
    · have hedF : inv.editor = false := by
        rw [hs] at hed
        simpa using hed
      have hpostnil : postLoop inv env = [] := by
        simp [postLoop, hs]
      have hfp : finalPrompt inv env =
          some (s ++ "\n\n" ++ inv.prompt.getD "") := by
        simp [finalPrompt, hedF, heff]
      rw [hm, hpostnil] at hev
      simp only [List.append_nil, List.mem_cons] at hev
      rcases hev with hev | hev
      · subst hev
        exact Event.noConfusion hevEq
      · rcases generation_events inv env rc ev hev with
          ⟨k', cid', hk', hev'⟩ | ⟨i, hev'⟩
        · rw [hev'] at hevEq
          injection hevEq with hek her hec hep
          rw [← hep]
          exact hfp
        · rw [hev'] at hevEq
          exact Event.noConfusion hevEq

/-- Claim C10 witness: `c10_prompt_requirement` at concrete invocations for
both the missing-prompt failure and the stdin-prepending path. -/
theorem c10_prompt_requirement_witness :
    main c10AInv envA = ([], Outcome.error (Err.MissingParameter "PROMPT")) ∧
    effectivePrompt c10BInv = some ("piped" ++ "\n\n" ++ "extra") :=
  ⟨c10_prompt_requirement.1 c10AInv envA rfl rfl rfl rfl,
   (c10_prompt_requirement.2 c10BInv envA "piped" rfl rfl).1⟩

end ShellGpt
